import Mathlib

/-
Shallow embedding of the Connection Resilience Subsystem of the
kitium-ai/database repository, together with proofs settling the
specification claims about it.

Conventions of the embedding:
- JavaScript numbers that carry delays, durations and jitter factors are
  modelled as rationals (all computations the claims touch are exact in
  IEEE doubles at the sizes involved).
- Timestamps (Date.now(), bigint nanosecond clocks) are modelled as
  integers supplied explicitly by the caller, making the implicit clock
  an explicit argument.
- Promise rejection / thrown errors are modelled with Except; a function
  that never throws returns a value (or provably always returns .ok).
- Math.random() is modelled as an explicit rational argument rand with
  0 <= rand < 1.
- Mutable object state (the Prisma client wrapper, the metrics buffers)
  is modelled by explicit state passing.
-/

/- ### Retry strategies (src/unnamed/part_009, linear-backoff.strategy.ts,
   exponential-backoff-with-jitter.strategy.ts) -/

/-- Embeds ExponentialBackoffStrategy.calculateDelay:
`return baseDelay * (2 ** attempt)`. -/
def ExponentialBackoffStrategy.calculateDelay (attempt : ℕ) (baseDelay : ℚ) : ℚ :=
  baseDelay * 2 ^ attempt

/-- Embeds ExponentialBackoffStrategy.shouldRetry: `return attempt < maxRetries`
(the error argument is accepted and ignored, as in the source). -/
def ExponentialBackoffStrategy.shouldRetry (attempt maxRetries : ℕ) (_error : String) : Bool :=
  decide (attempt < maxRetries)

/-- Embeds LinearBackoffStrategy.calculateDelay:
`return baseDelay * (attempt + 1)`. -/
def LinearBackoffStrategy.calculateDelay (attempt : ℕ) (baseDelay : ℚ) : ℚ :=
  baseDelay * (attempt + 1)

/-- Embeds LinearBackoffStrategy.shouldRetry: `return attempt < maxRetries`. -/
def LinearBackoffStrategy.shouldRetry (attempt maxRetries : ℕ) (_error : String) : Bool :=
  decide (attempt < maxRetries)

/-- State of a constructed ExponentialBackoffWithJitterStrategy instance:
the validated jitterFactor field. -/
structure ExponentialBackoffWithJitterStrategy where
  jitterFactor : ℚ
deriving DecidableEq, Repr

/-- Embeds the ExponentialBackoffWithJitterStrategy constructor:
`if (jitterFactor < 0 || jitterFactor > 1) throw new Error(...)`,
otherwise the instance stores the factor. -/
def ExponentialBackoffWithJitterStrategy.create (jitterFactor : ℚ) :
    Except String ExponentialBackoffWithJitterStrategy :=
  if jitterFactor < 0 ∨ 1 < jitterFactor then
    Except.error "Jitter factor must be between 0 and 1"
  else
    Except.ok { jitterFactor := jitterFactor }

/-- Embeds ExponentialBackoffWithJitterStrategy.calculateDelay:
`exponentialDelay = baseDelay * (2 ** attempt)`,
`jitter = Math.random() * exponentialDelay * jitterFactor`,
`return exponentialDelay + jitter`; Math.random() is the explicit rand. -/
def ExponentialBackoffWithJitterStrategy.calculateDelay
    (s : ExponentialBackoffWithJitterStrategy) (attempt : ℕ) (baseDelay rand : ℚ) : ℚ :=
  let exponentialDelay := baseDelay * 2 ^ attempt
  let jitter := rand * exponentialDelay * s.jitterFactor
  exponentialDelay + jitter

/-- Returns true when an Except holds an error (a thrown constructor). -/
def isError {ε α : Type} : Except ε α → Bool
  | Except.error _ => true
  | Except.ok _ => false

/- ### Retry coordinator (src/unnamed/part_003, class RetryCoordinator) -/

/-- The IRetryStrategy contract the coordinator is parameterized by. -/
structure IRetryStrategy where
  calculateDelay : ℕ → ℚ → ℚ
  shouldRetry : ℕ → ℕ → String → Bool

/-- ExponentialBackoffStrategy packaged as an IRetryStrategy value. -/
def exponentialStrategy : IRetryStrategy :=
  { calculateDelay := ExponentialBackoffStrategy.calculateDelay
    shouldRetry := ExponentialBackoffStrategy.shouldRetry }

/-- LinearBackoffStrategy packaged as an IRetryStrategy value. -/
def linearStrategy : IRetryStrategy :=
  { calculateDelay := LinearBackoffStrategy.calculateDelay
    shouldRetry := LinearBackoffStrategy.shouldRetry }

/-- Observable trace of one RetryCoordinator.execute run: the final state of
the (state-threaded) operation closure, the settled outcome (none only if the
fuel bound was hit, which the theorems rule out for the count-based
strategies of this repository), how many times the operation was invoked, and
the backoff delays slept, in order. -/
structure ExecTrace (σ α : Type) where
  state : σ
  outcome : Option (Except String α)
  invocations : ℕ
  delays : List ℚ
deriving Repr

/-- Embeds the `while (true)` loop body of RetryCoordinator.execute: invoke
the operation; on success return immediately; on failure consult
strategy.shouldRetry(attempt, maxRetries, error) and either rethrow the error
unchanged or record calculateDelay(attempt, baseDelay), sleep, increment
attempt and loop. The source loop is syntactically unbounded, so the
recursion carries fuel; every theorem below exhibits a run whose outcome is
`some`, i.e. one the fuel did not cut short. -/
def RetryCoordinator.executeGo {σ α : Type} (strat : IRetryStrategy)
    (op : σ → σ × Except String α) (maxRetries : ℕ) (baseDelay : ℚ) :
    ℕ → ℕ → σ → ExecTrace σ α
  | _, 0, st => { state := st, outcome := none, invocations := 0, delays := [] }
  | attempt, fuel + 1, st =>
    match op st with
    | (st', Except.ok v) =>
      { state := st', outcome := some (Except.ok v), invocations := 1, delays := [] }
    | (st', Except.error e) =>
      if strat.shouldRetry attempt maxRetries e then
        let rest := RetryCoordinator.executeGo strat op maxRetries baseDelay
          (attempt + 1) fuel st'
        { state := rest.state
          outcome := rest.outcome
          invocations := rest.invocations + 1
          delays := strat.calculateDelay attempt baseDelay :: rest.delays }
      else
        { state := st', outcome := some (Except.error e), invocations := 1, delays := [] }

/-- Embeds RetryCoordinator.execute: attempt counter starts at 0; with a
count-based strategy at most maxRetries + 1 iterations can occur, which is
the fuel supplied. -/
def RetryCoordinator.execute {σ α : Type} (strat : IRetryStrategy)
    (op : σ → σ × Except String α) (maxRetries : ℕ) (baseDelay : ℚ) (st : σ) :
    ExecTrace σ α :=
  RetryCoordinator.executeGo strat op maxRetries baseDelay 0 (maxRetries + 1) st

/-- An operation that fails on every invocation, with the state counting the
invocations so far so that each failure carries a distinguishable error. -/
def countingFailOp (errs : ℕ → String) : ℕ → ℕ × Except String Unit :=
  fun n => (n + 1, Except.error (errs n))

/- ### Metrics collector (src/src/infrastructure/command/node-command-executor.ts,
   class MetricsCollector) -/

/-- Embeds the QueryMetric record; startTime/endTime are the bigint
nanosecond stamps, timestamp the Date the sample was recorded. -/
structure QueryMetric where
  operation : String
  startTime : ℤ
  endTime : ℤ
  duration : ℚ
  success : Bool
  timestamp : ℤ
deriving DecidableEq, Repr

/-- Embeds the ConnectionMetric record. -/
structure ConnectionMetric where
  adapter : String
  connectedAt : ℤ
  duration : Option ℚ
  disconnectedAt : Option ℤ
  success : Bool
deriving DecidableEq, Repr

/-- Embeds the mutable state of a MetricsCollector instance: the two sample
buffers and the constructor's maxAge (default 3600000 ms). -/
structure MetricsCollector where
  queryMetrics : List QueryMetric
  connectionMetrics : List ConnectionMetric
  maxAge : ℤ
deriving DecidableEq, Repr

/-- The hard ceiling field `maxMetricsSize = 10000`. -/
def maxMetricsSize : ℕ := 10000

/-- A freshly constructed collector with the default 1-hour retention. -/
def emptyCollector : MetricsCollector :=
  { queryMetrics := [], connectionMetrics := [], maxAge := 3600000 }

/-- Embeds the private cleanupOldMetrics method: shift query metrics from the
front while `now - first.timestamp > maxAge`, then do the same for connection
metrics against connectedAt. Nothing else is removed. -/
def MetricsCollector.cleanupOldMetrics (now : ℤ) (mc : MetricsCollector) : MetricsCollector :=
  { mc with
    queryMetrics := mc.queryMetrics.dropWhile (fun m => decide (mc.maxAge < now - m.timestamp))
    connectionMetrics :=
      mc.connectionMetrics.dropWhile (fun c => decide (mc.maxAge < now - c.connectedAt)) }

/-- Embeds recordQuery: push the sample (duration = (endTime - startTime)
nanoseconds converted to milliseconds, timestamp = now), then, only when the
buffer length exceeds maxMetricsSize, invoke cleanupOldMetrics. -/
def MetricsCollector.recordQuery (now : ℤ) (operation : String) (startTime endTime : ℤ)
    (success : Bool) (mc : MetricsCollector) : MetricsCollector :=
  let metric : QueryMetric :=
    { operation := operation
      startTime := startTime
      endTime := endTime
      duration := ((endTime - startTime : ℤ) : ℚ) / 1000000
      success := success
      timestamp := now }
  let mc' := { mc with queryMetrics := mc.queryMetrics ++ [metric] }
  if maxMetricsSize < mc'.queryMetrics.length then
    MetricsCollector.cleanupOldMetrics now mc'
  else
    mc'

/-- Embeds the MetricsSnapshot shape returned by getSnapshot, with the nested
queries/connections objects flattened into one record. -/
structure MetricsSnapshot where
  queriesTotal : ℕ
  queriesSuccessful : ℕ
  queriesFailed : ℕ
  averageDuration : ℚ
  slowestDuration : ℚ
  connectionsActive : ℕ
  connectionsTotalAttempts : ℕ
  connectionsSuccessful : ℕ
  connectionsFailed : ℕ
  timestamp : ℤ
deriving DecidableEq, Repr

/-- Embeds getSnapshot: filter both buffers to samples within the retention
window (`now - t < maxAge`), then aggregate. The `length > 0` guards of the
source make the empty aggregates 0 instead of NaN (mean) and -Infinity
(Math.max of no arguments); the nonempty Math.max spread is the fold of max
over the durations started at the first one. -/
def MetricsCollector.getSnapshot (now : ℤ) (mc : MetricsCollector) : MetricsSnapshot :=
  let validQueries := mc.queryMetrics.filter (fun m => decide (now - m.timestamp < mc.maxAge))
  let validConnections :=
    mc.connectionMetrics.filter (fun c => decide (now - c.connectedAt < mc.maxAge))
  let successfulQueries := validQueries.filter (fun q => q.success)
  let failedQueries := validQueries.filter (fun q => !q.success)
  let avgDuration : ℚ :=
    if 0 < validQueries.length then
      (validQueries.map (fun q => q.duration)).sum / (validQueries.length : ℚ)
    else 0
  let slowestDuration : ℚ :=
    match validQueries.map (fun q => q.duration) with
    | [] => 0
    | d :: ds => ds.foldl max d
  let successfulConnections := validConnections.filter (fun c => c.success)
  let failedConnections := validConnections.filter (fun c => !c.success)
  let activeConnections := validConnections.filter (fun c => c.disconnectedAt.isNone)
  { queriesTotal := validQueries.length
    queriesSuccessful := successfulQueries.length
    queriesFailed := failedQueries.length
    averageDuration := avgDuration
    slowestDuration := slowestDuration
    connectionsActive := activeConnections.length
    connectionsTotalAttempts := validConnections.length
    connectionsSuccessful := successfulConnections.length
    connectionsFailed := failedConnections.length
    timestamp := now }

/-- n successive recordQuery calls, all recorded at clock instant 0 (so every
sample sits well inside the default 1-hour retention window). -/
def recordN : ℕ → MetricsCollector → MetricsCollector
  | 0, mc => mc
  | n + 1, mc => MetricsCollector.recordQuery 0 "findUser" 0 0 true (recordN n mc)

/- ### Structured errors (toKitiumError option bags used across the adapters,
   src/unnamed/part_002 and the per-call option objects) -/

/-- Embeds the classified error shape produced by toKitiumError /
InternalError: code, human message, severity, retryable flag, and the
original cause when one is wrapped. -/
structure KitiumError where
  code : String
  message : String
  severity : String
  retryable : Bool
  cause : Option String
deriving DecidableEq, Repr

/-- The InternalError thrown by PostgresAdapter.getClient when the client
wrapper holds no client: code database/postgres_not_initialized,
never retryable. -/
def pgNotInitializedError : KitiumError :=
  { code := "database/postgres_not_initialized"
    message := "PostgreSQL adapter not initialized. Call connect() first."
    severity := "error"
    retryable := false
    cause := none }

/-- The toKitiumError option bag of the catch block of PostgresAdapter.query:
code database/postgres_query_failed (the execution-failure classification,
kept here to compare codes with the not-initialized error). -/
def pgQueryFailedError : KitiumError :=
  { code := "database/postgres_query_failed"
    message := "PostgreSQL query execution failed"
    severity := "error"
    retryable := false
    cause := none }

/-- The toKitiumError wrapping of the catch block of PostgresAdapter.connect:
code database/postgres_connection_failed, retryable by the caller. -/
def pgConnectionFailedError (cause : String) : KitiumError :=
  { code := "database/postgres_connection_failed"
    message := "Failed to connect to PostgreSQL database"
    severity := "error"
    retryable := true
    cause := some cause }

/- ### Prisma client wrapper and PostgreSQL adapter
   (src/unnamed/part_012 and src/src/infrastructure/adapters/postgres/
   postgres.adapter.ts) -/

/-- The slice of DatabaseConfig the adapter's connect path reads. -/
structure DatabaseConfig where
  databaseUrl : Option String
  retryMaxRetries : Option ℕ
  retryDelay : Option ℚ
deriving Repr

/-- Embeds the mutable state of PrismaClientWrapper: `client`, null until the
factory has produced an instance (the instance itself is opaque here). -/
structure PrismaClientWrapper where
  client : Option Unit
deriving DecidableEq, Repr

/-- Embeds PrismaClientFactory.createClient: throw when config.databaseUrl is
missing, otherwise build a (lazy, not yet connected) client. -/
def PrismaClientFactory.createClient (cfg : DatabaseConfig) : Except String Unit :=
  if cfg.databaseUrl.isSome then Except.ok ()
  else Except.error "DATABASE_URL is required for PostgreSQL"

/-- Embeds PrismaClientWrapper.getOrCreate: `this.client ??=
this.factory.createClient(config)`; a factory throw propagates and leaves the
wrapper untouched. -/
def PrismaClientWrapper.getOrCreate (cfg : DatabaseConfig) (w : PrismaClientWrapper) :
    Except String PrismaClientWrapper :=
  match w.client with
  | some _ => Except.ok w
  | none =>
    match PrismaClientFactory.createClient cfg with
    | Except.ok c => Except.ok { client := some c }
    | Except.error e => Except.error e

/-- Embeds PrismaClientWrapper.isConnected: `return this.client !== null`. -/
def PrismaClientWrapper.isConnected (w : PrismaClientWrapper) : Bool :=
  w.client.isSome

/-- Embeds PrismaClientWrapper.disconnect: no-op when client is null;
otherwise await client.$disconnect() (outcome supplied by the environment)
and null the client only when that await did not throw. -/
def PrismaClientWrapper.disconnect (closeOutcome : Except String Unit)
    (w : PrismaClientWrapper) : PrismaClientWrapper × Except String Unit :=
  match w.client with
  | none => (w, Except.ok ())
  | some _ =>
    match closeOutcome with
    | Except.ok _ => ({ client := none }, Except.ok ())
    | Except.error e => (w, Except.error e)

/-- Embeds the mutable state of a PostgresAdapter: its client wrapper and the
healthCheckProvider field (the provider instance is opaque here). -/
structure PostgresAdapter where
  clientWrapper : PrismaClientWrapper
  healthCheckProvider : Option Unit
deriving DecidableEq, Repr

/-- A freshly constructed adapter: no client, no health-check provider. -/
def freshPgAdapter : PostgresAdapter :=
  { clientWrapper := { client := none }, healthCheckProvider := none }

/-- The fallback strategy inlined in the PostgresAdapter constructor when no
strategy is injected: delay = baseDelay * 2 ** attempt, retry while
attempt < maxRetries. -/
def pgDefaultStrategy : IRetryStrategy :=
  { calculateDelay := fun attempt baseDelay => baseDelay * 2 ^ attempt
    shouldRetry := fun attempt maxRetries _ => decide (attempt < maxRetries) }

/-- One attempt of the connect closure: getOrCreate the client (a factory
throw fails the attempt and leaves the wrapper as it was), then await
client.$connect(), whose outcome the environment supplies; the wrapper keeps
the created client whether or not the handshake succeeded. -/
def pgConnectOp (cfg : DatabaseConfig) (handshake : Except String Unit) :
    PrismaClientWrapper → PrismaClientWrapper × Except String Unit :=
  fun w =>
    match PrismaClientWrapper.getOrCreate cfg w with
    | Except.error e => (w, Except.error e)
    | Except.ok w' => (w', handshake)

/-- Embeds PostgresAdapter.connect: drive pgConnectOp through
RetryCoordinator.execute with maxRetries/baseDelay from config (defaults 3
and 1000); on success bind a health-check provider when a client exists; on
exhausted retries wrap the final error as database/postgres_connection_failed
and rethrow. The wrapper state produced by the attempts persists on the
adapter in every branch, exactly as the mutable field does in the source. -/
def PostgresAdapter.connect (cfg : DatabaseConfig) (handshake : Except String Unit)
    (a : PostgresAdapter) : PostgresAdapter × Except KitiumError Unit :=
  let maxRetries := cfg.retryMaxRetries.getD 3
  let baseDelay := cfg.retryDelay.getD 1000
  let t := RetryCoordinator.execute pgDefaultStrategy (pgConnectOp cfg handshake)
    maxRetries baseDelay a.clientWrapper
  match t.outcome with
  | some (Except.ok _) =>
    ({ clientWrapper := t.state
       healthCheckProvider :=
         if t.state.client.isSome then some () else a.healthCheckProvider },
     Except.ok ())
  | some (Except.error e) =>
    ({ a with clientWrapper := t.state }, Except.error (pgConnectionFailedError e))
  | none =>
    ({ a with clientWrapper := t.state },
     Except.error (pgConnectionFailedError "retry loop did not settle"))

/-- Embeds PostgresAdapter.disconnect: await clientWrapper.disconnect() and
then null healthCheckProvider; a throw from the wrapper jumps to the catch,
which logs the disconnect-failed classification and swallows it, so the
provider assignment is skipped and the caller still sees a normal return. -/
def PostgresAdapter.disconnect (closeOutcome : Except String Unit)
    (a : PostgresAdapter) : PostgresAdapter × Except KitiumError Unit :=
  match PrismaClientWrapper.disconnect closeOutcome a.clientWrapper with
  | (w', Except.ok _) =>
    ({ clientWrapper := w', healthCheckProvider := none }, Except.ok ())
  | (w', Except.error _) =>
    ({ a with clientWrapper := w' }, Except.ok ())

/-- Embeds PostgresAdapter.isConnected: delegate to the wrapper. -/
def PostgresAdapter.isConnected (a : PostgresAdapter) : Bool :=
  a.clientWrapper.isConnected

/-- Embeds PostgresAdapter.query: `this.getClient()` throws the
not-initialized InternalError when the wrapper holds no client; with a client
the stub body resolves (its catch block, whose classification
pgQueryFailedError records, guards the execution path). -/
def PostgresAdapter.query (a : PostgresAdapter) : Except KitiumError Unit :=
  match a.clientWrapper.client with
  | none => Except.error pgNotInitializedError
  | some _ => Except.ok ()

/- ### Health reports and orchestrator (src/src/types.ts and
   src/unnamed/part_003, class HealthCheckOrchestrator) -/

/-- The HealthReport status domain of src/src/types.ts. -/
inductive HealthStatus
  | ready
  | initializing
  | unhealthy
deriving DecidableEq, Repr

/-- Embeds HealthReport (details reduced to the error string the
orchestrator stores there). -/
structure HealthReport where
  service : String
  status : HealthStatus
  details : Option String
deriving DecidableEq, Repr

/-- The aggregated status domain of getAggregatedStatus. -/
inductive AggregatedStatus
  | ready
  | degraded
  | unhealthy
deriving DecidableEq, Repr

/-- An orchestrated adapter as checkAll sees it: its name and what awaiting
its healthCheck() produced (a report, or a rejection). -/
def OrchestratedAdapter : Type := String × Except String HealthReport

/-- Embeds HealthCheckOrchestrator.checkAll: map every adapter to its report,
converting a rejected healthCheck() into an unhealthy report carrying the
exception message, so one bad adapter never aborts the fan-out. -/
def HealthCheckOrchestrator.checkAll (adapters : List OrchestratedAdapter) :
    List HealthReport :=
  adapters.map (fun p =>
    match p.2 with
    | Except.ok r => r
    | Except.error e => { service := p.1, status := HealthStatus.unhealthy, details := some e })

/-- Embeds HealthCheckOrchestrator.isHealthy: every report of checkAll() has
status ready. -/
def HealthCheckOrchestrator.isHealthy (adapters : List OrchestratedAdapter) : Bool :=
  (HealthCheckOrchestrator.checkAll adapters).all (fun r => decide (r.status = HealthStatus.ready))

/-- Embeds HealthCheckOrchestrator.getAggregatedStatus: unhealthy when no
reports; ready when healthyCount equals totalCount; degraded when
healthyCount is positive; unhealthy otherwise. -/
def HealthCheckOrchestrator.getAggregatedStatus (adapters : List OrchestratedAdapter) :
    AggregatedStatus :=
  let reports := HealthCheckOrchestrator.checkAll adapters
  if reports.length = 0 then AggregatedStatus.unhealthy
  else
    let healthyCount :=
      (reports.filter (fun r => decide (r.status = HealthStatus.ready))).length
    if healthyCount = reports.length then AggregatedStatus.ready
    else if 0 < healthyCount then AggregatedStatus.degraded
    else AggregatedStatus.unhealthy

/-- A single orchestrated adapter whose health check resolves with an
initializing report (the third status of the HealthReport domain). -/
def initReportAdapters : List OrchestratedAdapter :=
  [("postgres", Except.ok { service := "postgres"
                            status := HealthStatus.initializing
                            details := none })]

/- ### Helper lemmas -/

/-- dropWhile removes nothing from a list on which the predicate never
holds. -/
lemma dropWhile_eq_self_of_false {α : Type} (p : α → Bool) (l : List α)
    (h : ∀ x ∈ l, p x = false) : l.dropWhile p = l := by
  cases l with
  | nil => rfl
  | cons a t =>
    have ha : p a = false := h a (List.mem_cons_self a t)
    simp [List.dropWhile_cons, ha]

/-- Running the retry loop on an always-failing operation from attempt a with
exactly the fuel the count-based predicate allows settles on the error of
attempt maxRetries, having invoked the operation once per remaining attempt
and slept the strategy delay of each attempt below maxRetries. -/
lemma executeGo_countingFailOp (strat : IRetryStrategy)
    (hs : ∀ a m e, strat.shouldRetry a m e = decide (a < m))
    (errs : ℕ → String) (N : ℕ) (d : ℚ) :
    ∀ (fuel a : ℕ), 1 ≤ fuel → a + fuel = N + 1 →
      RetryCoordinator.executeGo strat (countingFailOp errs) N d a fuel a =
        { state := N + 1
          outcome := some (Except.error (errs N))
          invocations := fuel
          delays := (List.range' a (N - a)).map (fun i => strat.calculateDelay i d) } := by
  intro fuel
  induction fuel with
  | zero => intro a h1 _; exact absurd h1 (by omega)
  | succ f ih =>
    intro a _ hsum
    by_cases hlt : a < N
    · have hf : 1 ≤ f := by omega
      have hrec := ih (a + 1) hf (by omega)
      have hrange : N - a = (N - (a + 1)) + 1 := by omega
      simp only [RetryCoordinator.executeGo, countingFailOp, hs]
      rw [if_pos (by simp [hlt])]
      rw [hrec, hrange, List.range'_succ]
      simp
    · have haN : a = N := by omega
      have hf0 : f = 0 := by omega
      subst haN hf0
      simp [RetryCoordinator.executeGo, countingFailOp, hs]

/- ### Claim theorems -/

/-- Claim C4: RetryCoordinator.execute with maxRetries = N, a count-based
strategy (all three repository strategies retry exactly while
attempt < maxRetries) and an operation that fails on every invocation
invokes the operation exactly N + 1 times, propagates the error of the last
invocation unchanged (not wrapped), and sleeps exactly the N strategy delays
of attempts 0..N-1 — in particular with maxRetries = 0 the operation runs
exactly once and no delay is incurred. -/
theorem retryCoordinator_exhausts_with_last_error (strat : IRetryStrategy)
    (hs : ∀ a m e, strat.shouldRetry a m e = decide (a < m))
    (errs : ℕ → String) (N : ℕ) (d : ℚ) :
    (RetryCoordinator.execute strat (countingFailOp errs) N d 0).invocations = N + 1 ∧
    (RetryCoordinator.execute strat (countingFailOp errs) N d 0).outcome =
      some (Except.error (errs N)) ∧
    (RetryCoordinator.execute strat (countingFailOp errs) N d 0).delays =
      (List.range N).map (fun i => strat.calculateDelay i d) ∧
    (N = 0 → (RetryCoordinator.execute strat (countingFailOp errs) N d 0).delays = []) := by
  have h := executeGo_countingFailOp strat hs errs N d (N + 1) 0 (by omega) (by omega)
  rw [RetryCoordinator.execute, h]
  refine ⟨rfl, rfl, ?_, ?_⟩
  · simp [List.range_eq_range']
  · intro h0
    subst h0
    simp

/-- Witness for C4: the exponential strategy with maxRetries = 2 and a
constantly failing operation gives 3 invocations, the final error, and the
two exponential delays. -/
theorem retryCoordinator_exhausts_with_last_error_witness :
    (∀ a m e, exponentialStrategy.shouldRetry a m e = decide (a < m)) ∧
    ((RetryCoordinator.execute exponentialStrategy (countingFailOp (fun _ => "boom"))
        2 5 0).invocations = 2 + 1 ∧
     (RetryCoordinator.execute exponentialStrategy (countingFailOp (fun _ => "boom"))
        2 5 0).outcome = some (Except.error "boom") ∧
     (RetryCoordinator.execute exponentialStrategy (countingFailOp (fun _ => "boom"))
        2 5 0).delays =
       (List.range 2).map (fun i => exponentialStrategy.calculateDelay i 5) ∧
     (2 = 0 → (RetryCoordinator.execute exponentialStrategy
        (countingFailOp (fun _ => "boom")) 2 5 0).delays = [])) :=
  ⟨fun _ _ _ => rfl,
   retryCoordinator_exhausts_with_last_error exponentialStrategy (fun _ _ _ => rfl)
     (fun _ => "boom") 2 5⟩

/-- Claim C5: for every attempt up to 10 and every base delay d, the
exponential strategy returns d * 2 ^ attempt, the linear strategy
d * (attempt + 1), and with any Math.random draw rand in [0, 1) the jitter
variant's delay lies in [d * 2 ^ attempt, d * 2 ^ attempt * (1 + jitterFactor)]. -/
theorem backoff_delay_formulas (attempt : ℕ) (_h10 : attempt ≤ 10) (d rand : ℚ)
    (s : ExponentialBackoffWithJitterStrategy)
    (hd : 0 ≤ d) (hr0 : 0 ≤ rand) (hr1 : rand < 1) (hjf : 0 ≤ s.jitterFactor) :
    ExponentialBackoffStrategy.calculateDelay attempt d = d * 2 ^ attempt ∧
    LinearBackoffStrategy.calculateDelay attempt d = d * (attempt + 1) ∧
    d * 2 ^ attempt ≤ s.calculateDelay attempt d rand ∧
    s.calculateDelay attempt d rand ≤ d * 2 ^ attempt * (1 + s.jitterFactor) := by
  have he : (0 : ℚ) ≤ d * 2 ^ attempt :=
    mul_nonneg hd (by positivity)
  refine ⟨rfl, rfl, ?_, ?_⟩
  · simp only [ExponentialBackoffWithJitterStrategy.calculateDelay]
    have hj : 0 ≤ rand * (d * 2 ^ attempt) * s.jitterFactor :=
      mul_nonneg (mul_nonneg hr0 he) hjf
    linarith
  · simp only [ExponentialBackoffWithJitterStrategy.calculateDelay]
    have key : 0 ≤ (d * 2 ^ attempt * s.jitterFactor) * (1 - rand) :=
      mul_nonneg (mul_nonneg he hjf) (by linarith)
    nlinarith [key]

/-- Witness for C5 at attempt 3, base delay 100, rand 1/2 and jitter factor
1/10. -/
theorem backoff_delay_formulas_witness :
    (3 : ℕ) ≤ 10 ∧ (0 : ℚ) ≤ 100 ∧ (0 : ℚ) ≤ 1 / 2 ∧ (1 / 2 : ℚ) < 1 ∧
    (0 : ℚ) ≤ (ExponentialBackoffWithJitterStrategy.mk (1 / 10)).jitterFactor ∧
    (ExponentialBackoffStrategy.calculateDelay 3 100 = 100 * 2 ^ 3 ∧
     LinearBackoffStrategy.calculateDelay 3 100 = 100 * (3 + 1) ∧
     (100 : ℚ) * 2 ^ 3 ≤
       (ExponentialBackoffWithJitterStrategy.mk (1 / 10)).calculateDelay 3 100 (1 / 2) ∧
     (ExponentialBackoffWithJitterStrategy.mk (1 / 10)).calculateDelay 3 100 (1 / 2) ≤
       100 * 2 ^ 3 * (1 + (ExponentialBackoffWithJitterStrategy.mk (1 / 10)).jitterFactor)) :=
  ⟨by norm_num, by norm_num, by norm_num, by norm_num, by norm_num,
   backoff_delay_formulas 3 (by norm_num) 100 (1 / 2)
     (ExponentialBackoffWithJitterStrategy.mk (1 / 10))
     (by norm_num) (by norm_num) (by norm_num) (by norm_num)⟩

/-- Claim C6: constructing the exponential-with-jitter strategy throws its
validation error exactly when jitterFactor is outside [0, 1] — in particular
for 3/2 and -1/10 — and for every factor inside [0, 1] it succeeds, storing
the factor, before any delay is ever computed. -/
theorem jitter_factor_validation (jf : ℚ) :
    (isError (ExponentialBackoffWithJitterStrategy.create jf) = true ↔ jf < 0 ∨ 1 < jf) ∧
    isError (ExponentialBackoffWithJitterStrategy.create (3 / 2)) = true ∧
    isError (ExponentialBackoffWithJitterStrategy.create (-1 / 10)) = true ∧
    (0 ≤ jf ∧ jf ≤ 1 →
      ExponentialBackoffWithJitterStrategy.create jf =
        Except.ok { jitterFactor := jf }) := by
  refine ⟨?_, by norm_num [ExponentialBackoffWithJitterStrategy.create, isError],
    by norm_num [ExponentialBackoffWithJitterStrategy.create, isError], ?_⟩
  · unfold ExponentialBackoffWithJitterStrategy.create
    by_cases h : jf < 0 ∨ 1 < jf
    · simp [h, isError]
    · simp [h, isError]
  · rintro ⟨h0, h1⟩
    unfold ExponentialBackoffWithJitterStrategy.create
    rw [if_neg]
    push_neg
    exact ⟨h0, h1⟩

/-- Witness for C6 at jitterFactor 1/2 (inside the valid range). -/
theorem jitter_factor_validation_witness :
    ((isError (ExponentialBackoffWithJitterStrategy.create (1 / 2)) = true ↔
        (1 / 2 : ℚ) < 0 ∨ 1 < (1 / 2 : ℚ)) ∧
     isError (ExponentialBackoffWithJitterStrategy.create (3 / 2)) = true ∧
     isError (ExponentialBackoffWithJitterStrategy.create (-1 / 10)) = true ∧
     ((0 : ℚ) ≤ 1 / 2 ∧ (1 / 2 : ℚ) ≤ 1 →
       ExponentialBackoffWithJitterStrategy.create (1 / 2) =
         Except.ok { jitterFactor := 1 / 2 })) :=
  jitter_factor_validation (1 / 2)

/-- Counterexample to claim C7 as stated: a single orchestrated adapter whose
health check resolves with status initializing yields a report multiset with
zero unhealthy reports and at least one report present, yet
getAggregatedStatus returns unhealthy, not ready (the code demands that all
reports be ready, not merely that none be unhealthy). -/
theorem aggregatedStatus_zero_unhealthy_not_ready :
    ((HealthCheckOrchestrator.checkAll initReportAdapters).filter
      (fun r => decide (r.status = HealthStatus.unhealthy))).length = 0 ∧
    (HealthCheckOrchestrator.checkAll initReportAdapters).length = 1 ∧
    HealthCheckOrchestrator.getAggregatedStatus initReportAdapters =
      AggregatedStatus.unhealthy := by
  refine ⟨rfl, rfl, rfl⟩

/-- Claim C7 as amended: getAggregatedStatus returns ready exactly when at
least one report is present and every report has status ready; unhealthy
exactly when no reports are present or none is ready; degraded exactly when
some but not all reports are ready. -/
theorem aggregatedStatus_characterization (adapters : List OrchestratedAdapter) :
    (HealthCheckOrchestrator.getAggregatedStatus adapters = AggregatedStatus.ready ↔
      0 < (HealthCheckOrchestrator.checkAll adapters).length ∧
      ((HealthCheckOrchestrator.checkAll adapters).filter
        (fun r => decide (r.status = HealthStatus.ready))).length =
        (HealthCheckOrchestrator.checkAll adapters).length) ∧
    (HealthCheckOrchestrator.getAggregatedStatus adapters = AggregatedStatus.unhealthy ↔
      (HealthCheckOrchestrator.checkAll adapters).length = 0 ∨
      ((HealthCheckOrchestrator.checkAll adapters).filter
        (fun r => decide (r.status = HealthStatus.ready))).length = 0) ∧
    (HealthCheckOrchestrator.getAggregatedStatus adapters = AggregatedStatus.degraded ↔
      0 < ((HealthCheckOrchestrator.checkAll adapters).filter
        (fun r => decide (r.status = HealthStatus.ready))).length ∧
      ((HealthCheckOrchestrator.checkAll adapters).filter
        (fun r => decide (r.status = HealthStatus.ready))).length <
        (HealthCheckOrchestrator.checkAll adapters).length) := by
  have hk := List.length_filter_le
    (fun r => decide (r.status = HealthStatus.ready))
    (HealthCheckOrchestrator.checkAll adapters)
  simp only [HealthCheckOrchestrator.getAggregatedStatus]
  split_ifs with h0 h1 h2
  · refine ⟨⟨(fun hx => nomatch hx), ?_⟩, ⟨fun _ => Or.inl h0, fun _ => rfl⟩,
      ⟨(fun hx => nomatch hx), ?_⟩⟩
    · rintro ⟨hpos, -⟩; omega
    · rintro ⟨-, hlt⟩; omega
  · refine ⟨⟨fun _ => ⟨by omega, h1⟩, fun _ => rfl⟩, ⟨(fun hx => nomatch hx), ?_⟩,
      ⟨(fun hx => nomatch hx), ?_⟩⟩
    · rintro (hz | hz) <;> omega
    · rintro ⟨-, hlt⟩; omega
  · refine ⟨⟨(fun hx => nomatch hx), ?_⟩, ⟨(fun hx => nomatch hx), ?_⟩,
      ⟨fun _ => ⟨h2, by omega⟩, fun _ => rfl⟩⟩
    · rintro ⟨-, hEq⟩; exact h1 hEq
    · rintro (hz | hz) <;> omega
  · refine ⟨⟨(fun hx => nomatch hx), ?_⟩, ⟨fun _ => Or.inr (by omega), fun _ => rfl⟩,
      ⟨(fun hx => nomatch hx), ?_⟩⟩
    · rintro ⟨hpos, hEq⟩; omega
    · rintro ⟨hpos, -⟩; omega

/-- Claim C10: with zero adapters registered, isHealthy() is vacuously true
while getAggregatedStatus() is simultaneously unhealthy, so isHealthy() being
true does not imply an aggregated status of ready. -/
theorem isHealthy_vacuous_zero_adapters :
    HealthCheckOrchestrator.isHealthy [] = true ∧
    HealthCheckOrchestrator.getAggregatedStatus [] = AggregatedStatus.unhealthy ∧
    AggregatedStatus.unhealthy ≠ AggregatedStatus.ready := by
  refine ⟨rfl, rfl, by simp⟩

/-- Claim C8: query() on an adapter whose wrapper holds no client (never
connected, or disconnected with the close having succeeded) rejects with the
standardized not-initialized error — code database/postgres_not_initialized,
retryable false — whose code differs from the query-failed classification
used for execution failures. -/
theorem pg_query_requires_connection (a : PostgresAdapter)
    (h : a.isConnected = false) :
    PostgresAdapter.query a = Except.error pgNotInitializedError ∧
    pgNotInitializedError.code = "database/postgres_not_initialized" ∧
    pgNotInitializedError.retryable = false ∧
    pgNotInitializedError.code ≠ pgQueryFailedError.code := by
  have hcl : a.clientWrapper.client = none := by
    cases hx : a.clientWrapper.client with
    | none => rfl
    | some c =>
      simp [PostgresAdapter.isConnected, PrismaClientWrapper.isConnected, hx] at h
  refine ⟨?_, rfl, rfl, by simp [pgNotInitializedError, pgQueryFailedError]⟩
  simp [PostgresAdapter.query, hcl]

/-- Witness for C8: a freshly constructed adapter is not connected and its
query() indeed rejects with the not-initialized error. -/
theorem pg_query_requires_connection_witness :
    freshPgAdapter.isConnected = false ∧
    (PostgresAdapter.query freshPgAdapter = Except.error pgNotInitializedError ∧
     pgNotInitializedError.code = "database/postgres_not_initialized" ∧
     pgNotInitializedError.retryable = false ∧
     pgNotInitializedError.code ≠ pgQueryFailedError.code) :=
  ⟨rfl, pg_query_requires_connection freshPgAdapter rfl⟩

/-- Claim C9: getSnapshot on a collector holding no samples inside the
retention window (in particular an empty collector) returns zeros everywhere
— counts, averageDuration and slowestDuration — and, being total, never
throws; the 0/0 mean (NaN) and empty Math.max (-Infinity) are structurally
excluded by the length guards. -/
theorem metrics_snapshot_stale_is_zero (now : ℤ) (mc : MetricsCollector)
    (hq : ∀ m ∈ mc.queryMetrics, mc.maxAge ≤ now - m.timestamp)
    (hc : ∀ c ∈ mc.connectionMetrics, mc.maxAge ≤ now - c.connectedAt) :
    MetricsCollector.getSnapshot now mc =
      { queriesTotal := 0, queriesSuccessful := 0, queriesFailed := 0,
        averageDuration := 0, slowestDuration := 0, connectionsActive := 0,
        connectionsTotalAttempts := 0, connectionsSuccessful := 0,
        connectionsFailed := 0, timestamp := now } := by
  have hfq : mc.queryMetrics.filter (fun m => decide (now - m.timestamp < mc.maxAge)) = [] := by
    rw [List.filter_eq_nil_iff]
    intro m hm
    simp only [decide_eq_true_eq, not_lt]
    exact hq m hm
  have hfc : mc.connectionMetrics.filter
      (fun c => decide (now - c.connectedAt < mc.maxAge)) = [] := by
    rw [List.filter_eq_nil_iff]
    intro c hcm
    simp only [decide_eq_true_eq, not_lt]
    exact hc c hcm
  simp [MetricsCollector.getSnapshot, hfq, hfc]

/-- Witness for C9: the empty collector at clock 0. -/
theorem metrics_snapshot_stale_is_zero_witness :
    (∀ m ∈ emptyCollector.queryMetrics, emptyCollector.maxAge ≤ (0 : ℤ) - m.timestamp) ∧
    (∀ c ∈ emptyCollector.connectionMetrics,
      emptyCollector.maxAge ≤ (0 : ℤ) - c.connectedAt) ∧
    MetricsCollector.getSnapshot 0 emptyCollector =
      { queriesTotal := 0, queriesSuccessful := 0, queriesFailed := 0,
        averageDuration := 0, slowestDuration := 0, connectionsActive := 0,
        connectionsTotalAttempts := 0, connectionsSuccessful := 0,
        connectionsFailed := 0, timestamp := 0 } :=
  ⟨by simp [emptyCollector], by simp [emptyCollector],
   metrics_snapshot_stale_is_zero 0 emptyCollector
     (by simp [emptyCollector]) (by simp [emptyCollector])⟩

/-- A recordQuery call at clock 0 on a collector whose samples all carry
timestamp 0 and whose maxAge is the default 3600000 grows the query buffer by
exactly one: even when the ceiling check fires, cleanupOldMetrics only drops
samples older than maxAge, and none are. -/
lemma recordQuery_fresh (mc : MetricsCollector)
    (hts : ∀ m ∈ mc.queryMetrics, m.timestamp = 0)
    (hage : mc.maxAge = 3600000) :
    (MetricsCollector.recordQuery 0 "findUser" 0 0 true mc).queryMetrics.length =
      mc.queryMetrics.length + 1 ∧
    (∀ m ∈ (MetricsCollector.recordQuery 0 "findUser" 0 0 true mc).queryMetrics,
      m.timestamp = 0) ∧
    (MetricsCollector.recordQuery 0 "findUser" 0 0 true mc).maxAge = 3600000 := by
  simp only [MetricsCollector.recordQuery, MetricsCollector.cleanupOldMetrics]
  have hall : ∀ m ∈ mc.queryMetrics ++
      [{ operation := "findUser", startTime := 0, endTime := 0,
         duration := ((0 - 0 : ℤ) : ℚ) / 1000000, success := true,
         timestamp := 0 : QueryMetric }], m.timestamp = 0 := by
    intro m hm
    rcases List.mem_append.mp hm with hin | hin
    · exact hts m hin
    · simp only [List.mem_singleton] at hin
      rw [hin]
  split_ifs with hif
  · have hdrop := dropWhile_eq_self_of_false
      (fun m => decide (mc.maxAge < 0 - m.timestamp))
      (mc.queryMetrics ++
        [{ operation := "findUser", startTime := 0, endTime := 0,
           duration := ((0 - 0 : ℤ) : ℚ) / 1000000, success := true,
           timestamp := 0 : QueryMetric }])
      (by
        intro x hx
        show decide (mc.maxAge < 0 - x.timestamp) = false
        rw [hall x hx, hage]
        norm_num)
    refine ⟨?_, ?_, hage⟩
    · rw [hdrop]
      simp
    · intro m hm
      rw [hdrop] at hm
      exact hall m hm
  · refine ⟨by simp, hall, hage⟩

/-- Invariant of n recordQuery calls at clock 0 starting from the empty
collector: the buffer holds exactly n samples, all of timestamp 0. -/
lemma recordN_emptyCollector (n : ℕ) :
    (recordN n emptyCollector).queryMetrics.length = n ∧
    (∀ m ∈ (recordN n emptyCollector).queryMetrics, m.timestamp = 0) ∧
    (recordN n emptyCollector).maxAge = 3600000 := by
  induction n with
  | zero => exact ⟨rfl, by simp [recordN, emptyCollector], rfl⟩
  | succ k ih =>
    obtain ⟨h1, h2, h3⟩ := ih
    obtain ⟨g1, g2, g3⟩ := recordQuery_fresh (recordN k emptyCollector) h2 h3
    refine ⟨?_, ?_, ?_⟩
    · rw [recordN, g1, h1]
    · rw [recordN]
      exact g2
    · rw [recordN]
      exact g3

/-- Claim C1 (divergence at the failing input): recording 10,001 query
samples against the 10,000 ceiling, all within the retention window, retains
all 10,001 samples — the ceiling check fires cleanupOldMetrics, but that
routine only evicts samples older than maxAge, so no sample (in particular
not the oldest) is evicted and the ceiling is not enforced. -/
theorem metrics_cap_not_enforced :
    (recordN 10001 emptyCollector).queryMetrics.length = 10001 :=
  (recordN_emptyCollector 10001).1

/-- A handshake outcome that fails every attempt. -/
def refusedHandshake : Except String Unit := Except.error "connection refused"

/-- A configuration carrying a database URL (client construction succeeds)
and no retry overrides (defaults maxRetries = 3, baseDelay = 1000 apply). -/
def someUrlConfig : DatabaseConfig :=
  { databaseUrl := some "postgres://localhost:5432/app"
    retryMaxRetries := none
    retryDelay := none }

/-- Claim C2 (divergence at the failing input): connect() on a fresh adapter
with a valid URL and a handshake refused on every attempt exhausts its
retries and rethrows the connection-failed classification — but the client
lazily created on the first attempt persists in the wrapper, so afterwards
isConnected() reports true, not the Disconnected state the spec requires. -/
theorem pg_connect_failure_leaves_connected :
    (PostgresAdapter.connect someUrlConfig refusedHandshake freshPgAdapter).2 =
      Except.error (pgConnectionFailedError "connection refused") ∧
    (PostgresAdapter.connect someUrlConfig refusedHandshake freshPgAdapter).1.isConnected =
      true ∧
    (PostgresAdapter.connect someUrlConfig refusedHandshake
      freshPgAdapter).1.clientWrapper.client = some () := by
  refine ⟨rfl, rfl, rfl⟩

/-- An adapter in the Connected shape: client present, health-check provider
bound. -/
def connectedPgAdapter : PostgresAdapter :=
  { clientWrapper := { client := some () }, healthCheckProvider := some () }

/-- Claim C3 (divergence at the failing input): disconnect() never throws —
for every close outcome and every adapter state it returns normally — but
when the underlying close fails on a connected adapter, the client is not
nulled and the health-check provider is not cleared, so the adapter does not
end in the Disconnected state and isConnected() stays true. -/
theorem pg_disconnect_close_failure_keeps_state :
    (∀ (closeOutcome : Except String Unit) (a : PostgresAdapter),
      (PostgresAdapter.disconnect closeOutcome a).2 = Except.ok ()) ∧
    (PostgresAdapter.disconnect (Except.error "close failed") connectedPgAdapter).2 =
      Except.ok () ∧
    (PostgresAdapter.disconnect (Except.error "close failed")
      connectedPgAdapter).1.isConnected = true ∧
    (PostgresAdapter.disconnect (Except.error "close failed")
      connectedPgAdapter).1.healthCheckProvider = some () := by
  refine ⟨?_, rfl, rfl, rfl⟩
  intro closeOutcome a
  unfold PostgresAdapter.disconnect PrismaClientWrapper.disconnect
  cases a.clientWrapper.client with
  | none => rfl
  | some c =>
    cases closeOutcome with
    | ok v => rfl
    | error e => rfl
